import Mathlib

/-!
Verification of the route-path pattern compiler and matcher of the
`genuine` repository (`src/router/routes/paths.rs`).

The embedding is a direct state-passing translation of the Rust code:
the `Parser` struct (`bytes`, `anchor`, `cursor`) becomes a Lean
structure, every `&mut self` method becomes a function
`Parser → Result × Parser` that returns the mutated state even on the
error path (Rust methods advance the cursor before failing, and the
caller continues from the advanced state).  Bytes are `Nat` values
(`47 = '/'`, `123` is the opening brace, `125` the closing brace,
`37 = '%'`, `64 = '@'`, `32` space, `9` tab).  A Rust panic
(a failed `assert!` in `parameter_name`, a failed
`String::from_utf8(..).unwrap()` in `Path::matches`) is modelled as an
explicit third outcome, never as a silent simplification.  The two Rust
loops (`while self.consume(b'/')` in `parse`, the `loop` in `segment`)
are modelled with an explicit fuel of `bytes.length + 1`, which is
sufficient because every iteration of either loop advances the cursor
by at least one while the cursor is inside the buffer.
-/

namespace Paths

/-- The parts of a compiled route path, mirroring `enum Part` in
`paths.rs`: a literal byte run or a named parameter.  Names are kept as
byte lists (the Rust code stores a `String`, produced from the captured
bytes, which are ASCII alphanumeric). -/
inductive Part where
  | Literal (bytes : List Nat)
  | Param (name : List Nat)
deriving DecidableEq, Repr

/-- Mirrors `enum ParseError` in `paths.rs`. -/
inductive ParseError where
  | ExpectedExact (expected actual pos : Nat)
  | Expected (expected : String) (actual pos : Nat)
  | EndOfStream (pos : Nat)
  | IsNotAbsolute
deriving DecidableEq, Repr

/-- Result of a fallible Rust computation that can also panic:
`ok` mirrors `Ok`, `err` mirrors `Err`, and `panicked` marks a Rust
panic (failed `assert!` or `unwrap`). -/
inductive Outcome (A : Type) where
  | ok (a : A)
  | err (e : ParseError)
  | panicked
deriving DecidableEq, Repr

/-- Mirrors `struct Match` in `paths.rs` (name and captured value kept
as byte lists). -/
structure Match where
  name : List Nat
  value : List Nat
deriving DecidableEq, Repr

/-- Result of `Path::matches`: `matched ms` mirrors `Some(ms)`,
`noMatch` mirrors `None`, `panicked` marks a panic of the
`String::from_utf8(..).unwrap()` call. -/
inductive MatchResult where
  | matched (ms : List Match)
  | noMatch
  | panicked
deriving DecidableEq, Repr

/-- Rust slice `bytes[a..b]` (all slices taken by the code satisfy
`a ≤ b ≤ bytes.len()`, so the total `take`/`drop` encoding agrees with
Rust on every executed slice). -/
def sliceBytes (bytes : List Nat) (a b : Nat) : List Nat :=
  (bytes.take b).drop a

/-- Bytes of an ASCII string literal; models `str::as_bytes` for the
ASCII-only strings used in the claims. -/
def strBytes (s : String) : List Nat :=
  s.data.map (fun c => c.toNat)

/-- `u8::is_ascii_alphabetic`. -/
def isAsciiAlphabetic (x : Nat) : Bool :=
  (65 ≤ x && x ≤ 90) || (97 ≤ x && x ≤ 122)

/-- `u8::is_ascii_digit`. -/
def isAsciiDigit (x : Nat) : Bool :=
  48 ≤ x && x ≤ 57

/-- `u8::is_ascii_alphanumeric`. -/
def isAsciiAlphanumeric (x : Nat) : Bool :=
  isAsciiAlphabetic x || isAsciiDigit x

/-- The `sub-delims` byte class of RFC 3986 as matched by
`Parser::sub_delimiter`. -/
def isSubDelim (x : Nat) : Bool :=
  x = 33 || x = 36 || x = 38 || x = 39 || x = 40 || x = 41 || x = 42 ||
    x = 43 || x = 44 || x = 59 || x = 61

/-- Mirrors `struct Parser`: the input bytes, the start position of the
current literal (`anchor`) and the current parse position (`cursor`). -/
structure Parser where
  bytes : List Nat
  anchor : Nat
  cursor : Nat
deriving DecidableEq, Repr

/-- `Parser::new`. -/
def Parser.new (bytes : List Nat) : Parser :=
  ⟨bytes, 0, 0⟩

/-- `Parser::peek`. -/
def Parser.peek (p : Parser) : Option Nat :=
  p.bytes[p.cursor]?

/-- `Parser::consume`: consumes the next byte if it equals `expected`,
advancing the cursor on success; the state is unchanged on failure. -/
def Parser.consume (p : Parser) (expected : Nat) : Except ParseError Nat × Parser :=
  match p.peek with
  | some x =>
    if x = expected then (Except.ok x, { p with cursor := p.cursor + 1 })
    else (Except.error (ParseError.ExpectedExact expected x p.cursor), p)
  | none => (Except.error (ParseError.EndOfStream p.cursor), p)

/-- `Parser::any`: consumes and returns the next byte. -/
def Parser.any (p : Parser) : Except ParseError Nat × Parser :=
  match p.peek with
  | some x => (Except.ok x, { p with cursor := p.cursor + 1 })
  | none => (Except.error (ParseError.EndOfStream p.cursor), p)

/-- `Parser::expected`: an expected-class error at the current cursor. -/
def Parser.expectedErr (p : Parser) (what : String) (actual : Nat) : ParseError :=
  ParseError.Expected what actual p.cursor

/-- Fuel-indexed body of `Parser::skip_while` (`while peek().is_some_and(pred)`).
The zero-fuel fallback is unreachable for the fuel supplied by
`Parser.skip_while`, since every step advances the cursor inside the
buffer. -/
def Parser.skip_while_fuel (pred : Nat → Bool) : Nat → Parser → Parser
  | 0, p => p
  | fuel + 1, p =>
    match p.peek with
    | some x =>
      if pred x then Parser.skip_while_fuel pred fuel { p with cursor := p.cursor + 1 }
      else p
    | none => p

/-- `Parser::skip_while`. -/
def Parser.skip_while (pred : Nat → Bool) (p : Parser) : Parser :=
  Parser.skip_while_fuel pred (p.bytes.length + 1) p

/-- `Parser::ws`: skips spaces and tabs. -/
def Parser.ws (p : Parser) : Parser :=
  Parser.skip_while (fun x => x = 32 || x = 9) p

/-- `Parser::unreserved`: peeks an unreserved byte (RFC 3986) and
advances only on success. -/
def Parser.unreserved (p : Parser) : Option Nat × Parser :=
  match p.peek with
  | some x =>
    if isAsciiAlphanumeric x || x = 45 || x = 46 || x = 95 || x = 126 then
      (some x, { p with cursor := p.cursor + 1 })
    else (none, p)
  | none => (none, p)

/-- `Parser::hex_digit`: the expected-class error position is the
cursor after `any` has advanced, exactly as in the Rust code. -/
def Parser.hex_digit (p : Parser) : Except ParseError Nat × Parser :=
  match p.any with
  | (Except.error e, p1) => (Except.error e, p1)
  | (Except.ok x, p1) =>
    if 48 ≤ x && x ≤ 57 then (Except.ok (x - 48), p1)
    else if 65 ≤ x && x ≤ 70 then (Except.ok (x - 65 + 10), p1)
    else if 97 ≤ x && x ≤ 102 then (Except.ok (x - 97 + 10), p1)
    else (Except.error (p1.expectedErr "a hex digit" x), p1)

/-- `Parser::percent_encoded`: a partially consumed escape leaves the
cursor advanced, as in Rust (`self` is mutated before the failure). -/
def Parser.percent_encoded (p : Parser) : Except ParseError Nat × Parser :=
  match p.consume 37 with
  | (Except.error e, p1) => (Except.error e, p1)
  | (Except.ok _, p1) =>
    match p1.hex_digit with
    | (Except.error e, p2) => (Except.error e, p2)
    | (Except.ok upper, p2) =>
      match p2.hex_digit with
      | (Except.error e, p3) => (Except.error e, p3)
      | (Except.ok lower, p3) => (Except.ok (upper * 16 + lower), p3)

/-- `Parser::sub_delimiter`: `any` advances even when the byte is not a
sub-delimiter, and the error position is the advanced cursor. -/
def Parser.sub_delimiter (p : Parser) : Except ParseError Nat × Parser :=
  match p.any with
  | (Except.ok x, p1) =>
    if isSubDelim x then (Except.ok x, p1)
    else (Except.error (p1.expectedErr "a sub delimiter" x), p1)
  | (Except.error e, p1) => (Except.error e, p1)

/-- `Parser::pchar`: `unreserved`, else `percent_encoded` or-else
`sub_delimiter` or-else `consume(b'@')`; each fallback starts from the
state the failed alternative left behind, as the Rust `or_else` chain
does on `&mut self`. -/
def Parser.pchar (p : Parser) : Except ParseError Nat × Parser :=
  match p.unreserved with
  | (some x, p1) => (Except.ok x, p1)
  | (none, p1) =>
    match p1.percent_encoded with
    | (Except.ok x, p2) => (Except.ok x, p2)
    | (Except.error _, p2) =>
      match p2.sub_delimiter with
      | (Except.ok x, p3) => (Except.ok x, p3)
      | (Except.error _, p3) => p3.consume 64

/-- Fuel-indexed body of the `loop` in `Parser::segment`: repeat
`pchar`; stop at end of stream, or back the cursor off by one on any
other error.  The zero-fuel fallback is unreachable for the fuel
supplied by `Parser.segment`. -/
def Parser.segment_fuel : Nat → Parser → Parser
  | 0, p => p
  | fuel + 1, p =>
    match p.pchar with
    | (Except.ok _, p1) => Parser.segment_fuel fuel p1
    | (Except.error (ParseError.EndOfStream _), p1) => p1
    | (Except.error _, p1) => { p1 with cursor := p1.cursor - 1 }

/-- `Parser::segment`: runs the pchar loop and returns the bytes
captured between the entry cursor and the final cursor (the
`capture` combinator of the Rust code). -/
def Parser.segment (p : Parser) : List Nat × Parser :=
  let p1 := Parser.segment_fuel (p.bytes.length + 1) p
  (sliceBytes p1.bytes p.cursor p1.cursor, p1)

/-- `Parser::parameter_name`: captures one ASCII-alphabetic byte and
then alphanumeric bytes.  The Rust code asserts that the first byte is
alphabetic; a violated `assert!` is a panic, modelled as
`Outcome.panicked`.  The `from_utf8(..).unwrap_or_else(unreachable)`
cannot fail because the captured bytes are ASCII, so the name is kept
as the captured byte list. -/
def Parser.parameter_name (p : Parser) : Outcome (List Nat) × Parser :=
  let start := p.cursor
  match p.any with
  | (Except.error e, p1) => (Outcome.err e, p1)
  | (Except.ok x, p1) =>
    if isAsciiAlphabetic x then
      let p2 := Parser.skip_while isAsciiAlphanumeric p1
      (Outcome.ok (sliceBytes p2.bytes start p2.cursor), p2)
    else (Outcome.panicked, p1)

/-- Fuel-indexed body of the `while self.consume(b'/').is_ok()` loop of
`Parser::parse`.  On a `{` the pending literal is flushed, the brace is
skipped, a whitespace-padded parameter name and a closing brace are
required and the anchor moves to the cursor; otherwise a segment is
consumed.  The zero-fuel fallback is unreachable for the fuel supplied
by `Parser.parse`. -/
def Parser.parse_fuel : Nat → Parser → List Part → Outcome (List Part) × Parser
  | 0, p, parts => (Outcome.ok parts, p)
  | fuel + 1, p, parts =>
    match p.consume 47 with
    | (Except.error _, p1) => (Outcome.ok parts, p1)
    | (Except.ok _, p1) =>
      match p1.peek with
      | some 123 =>
        let literal := sliceBytes p1.bytes p1.anchor p1.cursor
        let parts1 := parts ++ [Part.Literal literal]
        let p2 : Parser := { p1 with cursor := p1.cursor + 1 }
        let p3 := p2.ws
        match p3.parameter_name with
        | (Outcome.err e, p4) => (Outcome.err e, p4)
        | (Outcome.panicked, p4) => (Outcome.panicked, p4)
        | (Outcome.ok name, p4) =>
          let p5 := p4.ws
          match p5.consume 125 with
          | (Except.error e, p6) => (Outcome.err e, p6)
          | (Except.ok _, p6) =>
            let p7 : Parser := { p6 with anchor := p6.cursor }
            Parser.parse_fuel fuel p7 (parts1 ++ [Part.Param name])
      | _ =>
        let (_, p2) := p1.segment
        Parser.parse_fuel fuel p2 parts

/-- `Parser::parse` (the compile entry point `Path::new` delegates to):
require a leading slash (else not-absolute), reject a second immediate
slash as not-absolute, run the segment/parameter loop, then flush the
trailing literal bytes if any. -/
def Parser.parse (bytes : List Nat) : Outcome (List Part) :=
  let p0 := Parser.new bytes
  match p0.consume 47 with
  | (Except.error _, _) => Outcome.err ParseError.IsNotAbsolute
  | (Except.ok _, p1) =>
    match p1.consume 47 with
    | (Except.ok _, _) => Outcome.err ParseError.IsNotAbsolute
    | (Except.error _, _) =>
      match Parser.parse_fuel (bytes.length + 1) p1 [] with
      | (Outcome.err e, _) => Outcome.err e
      | (Outcome.panicked, _) => Outcome.panicked
      | (Outcome.ok parts, pEnd) =>
        let tail := sliceBytes pEnd.bytes pEnd.anchor pEnd.cursor
        if tail = [] then Outcome.ok parts
        else Outcome.ok (parts ++ [Part.Literal tail])

/-- `<[u8]>::strip_prefix` on byte lists. -/
def dropPrefixOpt : List Nat → List Nat → Option (List Nat)
  | [], s => some s
  | _ :: _, [] => none
  | a :: pre, b :: s => if a = b then dropPrefixOpt pre s else none

/-- Helper of `isUtf8`: a UTF-8 continuation byte. -/
def isCont (b : Nat) : Bool :=
  128 ≤ b && b ≤ 191

/-- UTF-8 validity of a byte list, as checked by
`String::from_utf8`. -/
def isUtf8 : List Nat → Bool
  | [] => true
  | b :: rest =>
    if b ≤ 127 then isUtf8 rest
    else if 194 ≤ b && b ≤ 223 then
      match rest with
      | c1 :: rest2 => isCont c1 && isUtf8 rest2
      | [] => false
    else if b = 224 then
      match rest with
      | c1 :: c2 :: rest2 => (160 ≤ c1 && c1 ≤ 191) && isCont c2 && isUtf8 rest2
      | _ => false
    else if (225 ≤ b && b ≤ 236) || b = 238 || b = 239 then
      match rest with
      | c1 :: c2 :: rest2 => isCont c1 && isCont c2 && isUtf8 rest2
      | _ => false
    else if b = 237 then
      match rest with
      | c1 :: c2 :: rest2 => (128 ≤ c1 && c1 ≤ 159) && isCont c2 && isUtf8 rest2
      | _ => false
    else if b = 240 then
      match rest with
      | c1 :: c2 :: c3 :: rest2 =>
        (144 ≤ c1 && c1 ≤ 191) && isCont c2 && isCont c3 && isUtf8 rest2
      | _ => false
    else if 241 ≤ b && b ≤ 243 then
      match rest with
      | c1 :: c2 :: c3 :: rest2 => isCont c1 && isCont c2 && isCont c3 && isUtf8 rest2
      | _ => false
    else if b = 244 then
      match rest with
      | c1 :: c2 :: c3 :: rest2 =>
        (128 ≤ c1 && c1 ≤ 143) && isCont c2 && isCont c3 && isUtf8 rest2
      | _ => false
    else false

/-- The part-walking loop of `Path::matches`: literals must be an exact
byte prefix of the remaining path; a parameter captures a fresh
`Parser::segment` over the remaining bytes, panicking
(`String::from_utf8(..).unwrap()`) if the captured bytes are not valid
UTF-8.  After the loop the remaining bytes are NOT inspected: the Rust
code returns `Some(matches)` unconditionally. -/
def Path.matchesAux : List Part → List Nat → List Match → MatchResult
  | [], _, ms => MatchResult.matched ms
  | Part.Literal lit :: rest, bytes, ms =>
    match dropPrefixOpt lit bytes with
    | some tail => Path.matchesAux rest tail ms
    | none => MatchResult.noMatch
  | Part.Param name :: rest, bytes, ms =>
    let (seg, _) := (Parser.new bytes).segment
    if isUtf8 seg then
      Path.matchesAux rest (bytes.drop seg.length) (ms ++ [⟨name, seg⟩])
    else MatchResult.panicked

/-- `Path::matches`. -/
def Path.matches (parts : List Part) (path : List Nat) : MatchResult :=
  Path.matchesAux parts path []

/-- Modelled from the spec: re-serialization of a part list (this
operation does not exist in the source; the spec states the round-trip
property in terms of it).  Literal bytes are emitted verbatim and each
parameter is re-inserted as an open brace, the name bytes and a close
brace. -/
def serializeParts : List Part → List Nat
  | [] => []
  | Part.Literal bs :: rest => bs ++ serializeParts rest
  | Part.Param name :: rest => 123 :: (name ++ 125 :: serializeParts rest)

end Paths

namespace Paths

/-- `Parser.consume` fails without moving the state whenever the peeked
byte is absent or differs from the expected byte. -/
theorem consume_fail (p : Parser) (e : Nat) (h : ∀ x, p.peek = some x → x ≠ e) :
    ∃ er, p.consume e = (Except.error er, p) := by
  unfold Parser.consume
  cases hpk : p.peek with
  | none => exact ⟨_, rfl⟩
  | some x =>
    have hx := h x hpk
    simp [hx]

/-- With any nonzero fuel, the segment/parameter loop of
`Parser.parse_fuel` exits immediately when the cursor is not on a
slash: the loop guard `consume(b'/')` fails on its first test. -/
theorem parse_fuel_exit (fuel : Nat) (p : Parser) (parts : List Part)
    (h : ∀ x, p.peek = some x → x ≠ 47) (hf : fuel ≠ 0) :
    Parser.parse_fuel fuel p parts = (Outcome.ok parts, p) := by
  cases fuel with
  | zero => exact absurd rfl hf
  | succ n =>
    obtain ⟨er, her⟩ := consume_fail p 47 h
    simp [Parser.parse_fuel, her]

/-- Full characterization of `Parser.parse`: it succeeds exactly on
inputs whose first byte is a slash and whose second byte, if present,
is not a slash, and every success is the one-part list with the single
literal consisting of the leading slash.  The loop body of `parse` is
unreachable: after the leading slash the cursor never again rests on a
slash when the loop guard runs. -/
theorem parse_spec (s : List Nat) :
    Parser.parse s =
      if s[0]? = some 47 ∧ s[1]? ≠ some 47 then Outcome.ok [Part.Literal [47]]
      else Outcome.err ParseError.IsNotAbsolute := by
  rcases s with _ | ⟨a, _ | ⟨b, t⟩⟩
  · decide
  · by_cases ha : a = 47
    · subst ha; decide
    · simp [Parser.parse, Parser.new, Parser.consume, Parser.peek, ha]
  · by_cases ha : a = 47
    · subst ha
      by_cases hb : b = 47
      · subst hb
        simp [Parser.parse, Parser.new, Parser.consume, Parser.peek]
      · have hexit := parse_fuel_exit ((47 :: b :: t).length + 1)
          ⟨47 :: b :: t, 0, 1⟩ []
          (fun x hx => by
            simp [Parser.peek] at hx
            omega)
          (by simp)
        simp only [List.length_cons] at hexit
        simp [Parser.parse, Parser.new, Parser.consume, Parser.peek, hb, hexit,
          sliceBytes]
    · simp [Parser.parse, Parser.new, Parser.consume, Parser.peek, ha]

end Paths

namespace Paths

/-- Every successful parse yields the one-part list holding the literal
consisting of the single leading slash byte. -/
theorem parse_ok_parts (s : List Nat) (parts : List Part)
    (h : Parser.parse s = Outcome.ok parts) : parts = [Part.Literal [47]] := by
  rw [parse_spec] at h
  split at h
  · injection h with h
    exact h.symm
  · exact absurd h (by simp)

/-- Matching the one-part list [Literal [47]] succeeds (with zero
matches) exactly when the path starts with a slash, regardless of any
remaining bytes. -/
theorem matches_single_slash (path : List Nat) :
    Path.matches [Part.Literal [47]] path =
      if path[0]? = some 47 then MatchResult.matched [] else MatchResult.noMatch := by
  rcases path with _ | ⟨a, t⟩
  · decide
  · by_cases ha : a = 47
    · subst ha
      simp [Path.matches, Path.matchesAux, dropPrefixOpt]
    · simp [Path.matches, Path.matchesAux, dropPrefixOpt, ha, Ne.symm ha]

/-- Claim C1, evidence of a code bug: compiling the pattern "/a/{id}/b"
does not yield the claimed three parts [Literal "/a/", Param "id",
Literal "/b"]; the segment/parameter loop of `Parser::parse` is
unreachable and the compiled result is the single literal "/". -/
theorem c1_parse_braced_pattern_eval :
    Parser.parse (strBytes "/a/{id}/b") = Outcome.ok [Part.Literal [47]] ∧
    Parser.parse (strBytes "/a/{id}/b") ≠
      Outcome.ok [Part.Literal (strBytes "/a/"), Part.Param (strBytes "id"),
        Part.Literal (strBytes "/b")] := by
  decide

/-- Claim C2, evidence of a code bug: the pattern "/ab" is accepted,
but re-serializing the returned parts gives "/" and not "/ab", so the
round-trip property fails on the code. -/
theorem c2_roundtrip_fails_eval :
    Parser.parse (strBytes "/ab") = Outcome.ok [Part.Literal [47]] ∧
    serializeParts [Part.Literal [47]] = strBytes "/" ∧
    strBytes "/" ≠ strBytes "/ab" := by
  decide

/-- Claim C3, counterexample: the compiled pattern of
"/url/with/{parameters}" matched against "/url/with/xyz/extra" returns
a successful match result although the parts consume only the leading
slash and eighteen bytes of the path remain unconsumed; the claim says
the result must be no-match whenever a remainder is left. -/
theorem c3_counterexample :
    Parser.parse (strBytes "/url/with/{parameters}") = Outcome.ok [Part.Literal [47]] ∧
    Path.matches [Part.Literal [47]] (strBytes "/url/with/xyz/extra") =
      MatchResult.matched [] ∧
    dropPrefixOpt [47] (strBytes "/url/with/xyz/extra") =
      some (strBytes "url/with/xyz/extra") ∧
    strBytes "url/with/xyz/extra" ≠ [] := by
  decide

/-- Claim C3 as amended: `Path::matches` performs no end-of-input check
after the part loop; on every compiled pattern (always the single
literal "/") it returns a successful empty match list exactly when the
path starts with a slash, trailing bytes notwithstanding. -/
theorem c3_amended_no_full_consumption_check (p s : List Nat) (parts : List Part)
    (h : Parser.parse p = Outcome.ok parts) :
    Path.matches parts s = MatchResult.matched [] ↔ s[0]? = some 47 := by
  rw [parse_ok_parts p parts h, matches_single_slash]
  by_cases hs : s[0]? = some 47 <;> simp [hs]

/-- Witness for the amended claim C3 at the concrete pattern
"/url/with/{parameters}" and path "/url/with/xyz/extra". -/
theorem c3_amended_witness :
    Path.matches [Part.Literal [47]] (strBytes "/url/with/xyz/extra") =
      MatchResult.matched [] ↔
      (strBytes "/url/with/xyz/extra")[0]? = some 47 :=
  c3_amended_no_full_consumption_check (strBytes "/url/with/{parameters}")
    (strBytes "/url/with/xyz/extra") [Part.Literal [47]] (by decide)

/-- Claim C4, counterexample: compiling "/" succeeds but yields the
one-part list [Literal "/"], not the empty part list the claim
states. -/
theorem c4_counterexample :
    Parser.parse (strBytes "/") = Outcome.ok [Part.Literal [47]] ∧
    Outcome.ok [Part.Literal [47]] ≠ Outcome.ok ([] : List Part) := by
  decide

/-- Claim C4 as amended: compiling "/" succeeds with the single-part
sequence [Literal "/"] (not the empty sequence); matching "/" against
that compiled root pattern succeeds with zero matches; and every
accepted pattern yields this same non-empty one-part sequence. -/
theorem c4_amended_root_single_literal :
    Parser.parse (strBytes "/") = Outcome.ok [Part.Literal [47]] ∧
    Path.matches [Part.Literal [47]] (strBytes "/") = MatchResult.matched [] ∧
    (∀ s parts, Parser.parse s = Outcome.ok parts →
      parts = [Part.Literal [47]] ∧ parts ≠ []) := by
  refine ⟨by decide, by decide, ?_⟩
  intro s parts h
  have hp := parse_ok_parts s parts h
  subst hp
  exact ⟨rfl, by simp⟩

/-- Witness for the amended claim C4 at the concrete accepted pattern
"/ab". -/
theorem c4_amended_witness :
    ([Part.Literal [47]] : List Part) = [Part.Literal [47]] ∧
    ([Part.Literal [47]] : List Part) ≠ [] :=
  c4_amended_root_single_literal.2.2 (strBytes "/ab") [Part.Literal [47]] (by decide)

/-- Claim C5: for every compiled pattern and every path, no match value
returned by `Path::matches` contains a slash byte.  (This holds
vacuously: no compiled pattern contains a `Param` part, so the match
list is always empty.) -/
theorem c5_no_slash_in_match_values (p path : List Nat) (parts : List Part)
    (ms : List Match) (hp : Parser.parse p = Outcome.ok parts)
    (hm : Path.matches parts path = MatchResult.matched ms) :
    ms.all (fun m => !(m.value.contains 47)) = true := by
  rw [parse_ok_parts p parts hp, matches_single_slash] at hm
  split at hm
  · injection hm with hm
    subst hm
    rfl
  · exact absurd hm (by simp)

/-- Witness for claim C5 at the concrete pattern "/a" and path
"/xyz". -/
theorem c5_witness :
    ([] : List Match).all (fun m => !(m.value.contains 47)) = true :=
  c5_no_slash_in_match_values (strBytes "/a") (strBytes "/xyz") [Part.Literal [47]]
    [] (by decide) (by decide)

/-- Claim C6: for every compiled pattern and every path byte sequence,
`Path::matches` returns normally (a match list or no-match) and never
reaches the panicking `String::from_utf8(..).unwrap()` call.  (The
parameter branch holding that call is unreachable because no compiled
pattern contains a `Param` part.) -/
theorem c6_matches_never_panics (p path : List Nat) (parts : List Part)
    (hp : Parser.parse p = Outcome.ok parts) :
    Path.matches parts path ≠ MatchResult.panicked := by
  rw [parse_ok_parts p parts hp, matches_single_slash]
  by_cases hs : path[0]? = some 47 <;> simp [hs]

/-- Witness for claim C6 at the concrete pattern "/a" and a path whose
second segment carries a malformed percent escape. -/
theorem c6_witness :
    Path.matches [Part.Literal [47]] (strBytes "/x%zz") ≠ MatchResult.panicked :=
  c6_matches_never_panics (strBytes "/a") (strBytes "/x%zz") [Part.Literal [47]]
    (by decide)

/-- Claim C7, evidence of a code bug: the pattern "/a/{id}/b" compiles
to the single literal "/" (not to a literal, parameter, literal
sequence), and matching it against "/a//b" yields a successful match
with ZERO matches rather than the claimed single empty-valued match
for "id". -/
theorem c7_braced_pattern_empty_segment_eval :
    Parser.parse (strBytes "/a/{id}/b") = Outcome.ok [Part.Literal [47]] ∧
    Path.matches [Part.Literal [47]] (strBytes "/a//b") = MatchResult.matched [] ∧
    MatchResult.matched [] ≠
      MatchResult.matched [{ name := strBytes "id", value := [] }] := by
  decide

/-- Claim C8, evidence of a code bug: the pattern "/{1abc}", whose
parameter name starts with a digit, is ACCEPTED by the parser (yielding
the single literal "/") instead of failing with an expected-class error
at the digit: the parameter-name code is never reached. -/
theorem c8_digit_name_pattern_eval :
    Parser.parse (strBytes "/{1abc}") = Outcome.ok [Part.Literal [47]] ∧
    ∀ e : ParseError, Parser.parse (strBytes "/{1abc}") ≠ Outcome.err e := by
  have h : Parser.parse (strBytes "/{1abc}") = Outcome.ok [Part.Literal [47]] := by
    decide
  refine ⟨h, ?_⟩
  intro e
  rw [h]
  simp

/-- Claim C9: every input that does not start with a slash, and every
input whose second byte is a slash, is rejected by `Parser::parse` with
the not-absolute error and no parts are produced. -/
theorem c9_not_absolute_rejection (s : List Nat)
    (h : s[0]? ≠ some 47 ∨ s[1]? = some 47) :
    Parser.parse s = Outcome.err ParseError.IsNotAbsolute := by
  rw [parse_spec]
  rcases h with h | h
  · rw [if_neg]
    intro hc
    exact h hc.1
  · rw [if_neg]
    intro hc
    exact hc.2 h

/-- Witness for claim C9 at the concrete inputs "url/path" (no leading
slash) and "//x" (double slash). -/
theorem c9_witness :
    Parser.parse (strBytes "url/path") = Outcome.err ParseError.IsNotAbsolute ∧
    Parser.parse (strBytes "//x") = Outcome.err ParseError.IsNotAbsolute :=
  ⟨c9_not_absolute_rejection (strBytes "url/path") (by decide),
   c9_not_absolute_rejection (strBytes "//x") (by decide)⟩

/-- Claim C10: `Parser::parse` returns the not-absolute error exactly
when the input does not start with a slash or its second byte is a
slash, and otherwise returns the single-element part list
[Literal "/"]; consequently no compiled path ever contains a `Param`
part (the segment/parameter loop body is never entered, and all input
bytes after position 1 are ignored). -/
theorem c10_parse_totality (s : List Nat) :
    (Parser.parse s =
      if s[0]? = some 47 ∧ s[1]? ≠ some 47 then Outcome.ok [Part.Literal [47]]
      else Outcome.err ParseError.IsNotAbsolute) ∧
    (∀ parts, Parser.parse s = Outcome.ok parts → ∀ name, Part.Param name ∉ parts) := by
  refine ⟨parse_spec s, ?_⟩
  intro parts h name
  rw [parse_ok_parts s parts h]
  simp

/-- Witness for claim C10 at the concrete accepted input "/ab". -/
theorem c10_witness :
    (Parser.parse (strBytes "/ab") =
      if (strBytes "/ab")[0]? = some 47 ∧ (strBytes "/ab")[1]? ≠ some 47 then
        Outcome.ok [Part.Literal [47]]
      else Outcome.err ParseError.IsNotAbsolute) ∧
    Part.Param (strBytes "id") ∉ [Part.Literal [47]] :=
  ⟨(c10_parse_totality (strBytes "/ab")).1,
   (c10_parse_totality (strBytes "/ab")).2 [Part.Literal [47]] (by decide)
     (strBytes "id")⟩

end Paths
